import Mathlib

/-!
Shallow embedding of the file-analysis client in `src/index.tsx`.

The browser `FileReader` operations (`readAsDataURL`, `readAsText`), the
`mammoth` docx extraction library and the Gemini streaming completion
service are external collaborators; a `File` value carries the outcomes
those collaborators would return for it, and an analysis run is
parameterised by the outcome of the stream.  All control flow of
`handleFileChange`, `removeFile`, `clearAll`, the prompt-part assembly
and the streaming accumulation of `analyzeFiles` is embedded directly.
-/

deriving instance DecidableEq for Except

namespace DocAnalyzer

/-- One uploaded browser file: its name, declared MIME type, size, and the
outcomes of the three external read operations the source can apply to it
(`FileReader.readAsText`, `FileReader.readAsDataURL` stripped to its base64
payload, and `mammoth.extractRawText`).  For a genuinely empty file the two
reader outcomes are `.ok ""`. -/
structure File where
  name : String
  type : String
  size : Nat
  textContent : Except String String
  base64Content : Except String String
  docxRawText : Except String String
  deriving DecidableEq

/-- `extractDocxText` from src/index.tsx lines 42-51: any failure of the
docx extraction collaborator is caught and rethrown with a fixed
human-readable message. -/
def extractDocxText (f : File) : Except String String :=
  match f.docxRawText with
  | .ok v => .ok v
  | .error _ => .error "Не удалось прочитать содержимое Word документа."

/-- The Word-document MIME type tested at src/index.tsx line 92. -/
def wordMime : String :=
  "application/vnd.openxmlformats-officedocument.wordprocessingml.document"

/-- JS `String.prototype.endsWith`, modelled over the character data. -/
def strEndsWith (s suffix : String) : Bool :=
  suffix.data.isSuffixOf s.data

/-- The `AppFile` interface of src/index.tsx lines 61-66: `base64` is a
plain string (empty when unused), `extractedText` is optional. -/
structure AppFile where
  file : File
  base64 : String
  extractedText : Option String
  id : String
  deriving DecidableEq

/-- One iteration of the intake loop body (src/index.tsx lines 87-106):
classify the file, run the matching extraction, and either build the
`AppFile` that is pushed onto `newFiles` or fail with the error message
the `catch` block would see. -/
def processFile (f : File) (id : String) : Except String AppFile :=
  if strEndsWith f.name ".docx" || f.type == wordMime then
    match extractDocxText f with
    | .ok t => .ok { file := f, base64 := "", extractedText := some t, id := id }
    | .error e => .error e
  else if f.type == "text/plain" || strEndsWith f.name ".txt" then
    match f.textContent with
    | .ok t => .ok { file := f, base64 := "", extractedText := some t, id := id }
    | .error e => .error e
  else
    match f.base64Content with
    | .ok b => .ok { file := f, base64 := b, extractedText := none, id := id }
    | .error e => .error e

/-- The application state tracked by the React component (src/index.tsx
lines 71-74): the ordered batch, the analyzing flag, the accumulated
result text, and the single current error message (`null` ≡ `none`). -/
structure AppState where
  files : List AppFile
  isAnalyzing : Bool
  result : String
  error : Option String
  deriving DecidableEq

/-- The capacity error message set at src/index.tsx line 81. -/
def capacityError : String := "Можно загрузить не более 10 файлов одновременно."

/-- The per-file error message set at src/index.tsx line 109. -/
def perFileError (f : File) (msg : String) : String :=
  "Ошибка при обработке файла " ++ f.name ++ ": " ++ msg

/-- One iteration of the `for`-loop of `handleFileChange` (src/index.tsx
lines 86-111) acting on the loop state (the `newFiles` accumulator and
the current error message): a success is appended to `newFiles`, a
failure overwrites the error message. -/
def intakeStep (acc : List AppFile × Option String) (c : File × String) :
    List AppFile × Option String :=
  match processFile c.1 c.2 with
  | .ok af => (acc.1 ++ [af], acc.2)
  | .error e => (acc.1, some (perFileError c.1 e))

/-- The whole `for`-loop of `handleFileChange`: the candidates are
processed in submission order. -/
def intakeLoop (sel : List (File × String)) (acc : List AppFile × Option String) :
    List AppFile × Option String :=
  sel.foldl intakeStep acc

/-- `handleFileChange` (src/index.tsx lines 78-116).  Each selected file is
paired with the identifier `Math.random` generated for it.  If the batch
would exceed ten files the whole call is rejected with a capacity error;
otherwise the candidates are processed in order, the successes are appended
to the batch, and the error state is finally cleared unconditionally
(line 114's `setError(null)` overwrites any per-file message set in the
loop). -/
def handleFileChange (s : AppState) (selected : List (File × String)) : AppState :=
  if s.files.length + selected.length > 10 then
    { s with error := some capacityError }
  else
    let run := intakeLoop selected ([], s.error)
    { s with files := s.files ++ run.1, error := none }

/-- `removeFile` (src/index.tsx lines 118-120). -/
def removeFile (s : AppState) (id : String) : AppState :=
  { s with files := s.files.filter (fun f => f.id ≠ id) }

/-- `clearAll` (src/index.tsx lines 122-126). -/
def clearAll (s : AppState) : AppState :=
  { s with files := [], result := "", error := none }

/-- The tagged request-part variant pushed onto `promptParts`
(src/index.tsx lines 138-157). -/
inductive Part where
  | text (content : String)
  | inlineData (mimeType : String) (data : String)
  deriving DecidableEq

/-- The fixed instruction prompt pushed last (src/index.tsx lines 155-157). -/
def instructionText : String :=
  "Проанализируй все предоставленные выше файлы (тексты, документы и изображения) и сделай краткие, но содержательные выводы по каждому из них. Выдели ключевые тезисы. В конце сделай общий обобщающий вывод. Отвечай на русском языке."

/-- The body of the `files.forEach` at src/index.tsx lines 140-153: a file
contributes a text part when `f.extractedText` is truthy (defined and
non-empty), else an inline-data part when `f.base64` is non-empty, else
nothing. -/
def filePart (f : AppFile) : Option Part :=
  match f.extractedText with
  | some t =>
    if t ≠ "" then some (.text ("Содержимое файла " ++ f.file.name ++ ":\n" ++ t))
    else if f.base64 ≠ "" then
      some (.inlineData (if f.file.type = "" then "application/octet-stream" else f.file.type) f.base64)
    else none
  | none =>
    if f.base64 ≠ "" then
      some (.inlineData (if f.file.type = "" then "application/octet-stream" else f.file.type) f.base64)
    else none

/-- Assembly of `promptParts` (src/index.tsx lines 138-157): the per-file
parts in batch order followed by the fixed instruction part. -/
def buildParts (files : List AppFile) : List Part :=
  files.filterMap filePart ++ [Part.text instructionText]

/-- Outcome of one streaming call to the completion service: the text of
the chunks that arrived (a chunk with no text is recorded as `""`), and —
when the stream fails — the `message` carried by the thrown error (`none`
when it has no truthy message). -/
inductive StreamOutcome where
  | success (fragments : List String)
  | failure (fragments : List String) (errMsg : Option String)
  deriving DecidableEq

/-- The fallback analysis error message at src/index.tsx line 172. -/
def analysisFallback : String := "Произошла ошибка при анализе файлов. Попробуйте снова."

/-- `err.message || fallback` (src/index.tsx line 172): an absent or empty
message falls back to the generic one. -/
def errorMessageOf (msg : Option String) : String :=
  match msg with
  | some m => if m = "" then analysisFallback else m
  | none => analysisFallback

/-- The `for await` accumulation at src/index.tsx lines 164-170: each
chunk's text is appended when truthy (non-empty). -/
def accumulate (init : String) (fragments : List String) : String :=
  fragments.foldl (fun acc t => if t ≠ "" then acc ++ t else acc) init

/-- `analyzeFiles` (src/index.tsx lines 128-177), parameterised by the
stream outcome: early return on an empty batch; otherwise the result is
cleared, then grown fragment by fragment; on failure the error message is
set (result keeps what had accumulated); `finally` clears the analyzing
flag. -/
def analyzeFiles (s : AppState) (outcome : StreamOutcome) : AppState :=
  if s.files.length = 0 then s
  else
    match outcome with
    | .success frags =>
      { s with isAnalyzing := false, result := accumulate "" frags, error := none }
    | .failure frags msg =>
      { s with isAnalyzing := false, result := accumulate "" frags,
               error := some (errorMessageOf msg) }

/-- The three extraction strategies named by the specification's
classification rule. -/
inductive Strategy where
  | wordExtract
  | utf8Text
  | base64Encode
  deriving DecidableEq

/-- The specification's classification rule, stated in its own words:
(a) filename ends in the Word extension OR declared type is the Word MIME
type → word extraction; (b) declared type is plain text OR filename ends
in the text extension → UTF-8 text; (c) otherwise → base64. -/
def specClassify (f : File) : Strategy :=
  if strEndsWith f.name ".docx" ∨ f.type = wordMime then .wordExtract
  else if f.type = "text/plain" ∨ strEndsWith f.name ".txt" then .utf8Text
  else .base64Encode

/-- Running one classification strategy on a file: word extraction and
UTF-8 reading populate `extractedText` (with `base64` left empty), base64
encoding populates `base64` (with `extractedText` absent). -/
def runStrategy (st : Strategy) (f : File) (id : String) : Except String AppFile :=
  match st with
  | .wordExtract => (extractDocxText f).map fun t => ⟨f, "", some t, id⟩
  | .utf8Text => f.textContent.map fun t => ⟨f, "", some t, id⟩
  | .base64Encode => f.base64Content.map fun b => ⟨f, b, none, id⟩

/-- `extractedText` is populated: defined (the source also demands
non-emptiness where it tests truthiness; `isSome` is the generous
reading). -/
def textPopulated (af : AppFile) : Prop := af.extractedText.isSome = true

/-- The base64 payload is populated: non-empty (the empty string is the
source's representation of an absent payload). -/
def payloadPopulated (af : AppFile) : Prop := af.base64 ≠ ""

/-- Exactly one of the two content fields of a tracked file is populated. -/
def exactlyOnePopulated (af : AppFile) : Prop :=
  (textPopulated af ∧ ¬ payloadPopulated af) ∨ (payloadPopulated af ∧ ¬ textPopulated af)

instance (af : AppFile) : Decidable (textPopulated af) := by
  unfold textPopulated; infer_instance

instance (af : AppFile) : Decidable (payloadPopulated af) := by
  unfold payloadPopulated; infer_instance

instance (af : AppFile) : Decidable (exactlyOnePopulated af) := by
  unfold exactlyOnePopulated; infer_instance

/-! Concrete sample inputs, used by witnesses and counterexamples.  The
reader outcomes are the ones the browser collaborators produce for such
files: an empty file reads as text `""` and as data-URL payload `""`. -/

/-- The initial component state (src/index.tsx lines 71-74). -/
def initialState : AppState := ⟨[], false, "", none⟩

/-- An empty PNG image: zero bytes, so both reader outcomes are `""`. -/
def emptyPng : File := ⟨"photo.png", "image/png", 0, .ok "", .ok "", .error "not a docx"⟩

/-- A small plain-text file. -/
def goodTxt : File := ⟨"notes.txt", "text/plain", 5, .ok "hello", .error "binary read", .error "not a docx"⟩

/-- A Word document on which the extraction collaborator fails. -/
def badDocx : File := ⟨"rep.docx", "", 9, .error "t", .error "b", .error "boom"⟩

/-- A Word document whose extraction succeeds. -/
def goodDocx : File := ⟨"rep.docx", "", 9, .error "t", .error "b", .ok "doc body"⟩

/-- A non-empty PNG image (payload `"QUJD"`). -/
def goodPng : File := ⟨"photo.png", "image/png", 3, .ok "", .ok "QUJD", .error "not a docx"⟩

/-- The tracked file produced by admitting `goodTxt` under id `"i1"`. -/
def goodTxtApp : AppFile := ⟨goodTxt, "", some "hello", "i1"⟩

/-- The tracked file produced by admitting `emptyPng` under id `"i1"`. -/
def emptyPngApp : AppFile := ⟨emptyPng, "", none, "i1"⟩

/-- The specification's three-file scenario batch: a text file, a Word
document, and an image. -/
def scenarioBatch : List AppFile :=
  [⟨goodTxt, "", some "hello", "a"⟩, ⟨goodDocx, "", some "doc body", "b"⟩, ⟨goodPng, "QUJD", none, "c"⟩]

/-- A nine-file state, one shy of capacity with room for at most one more. -/
def nineState : AppState := ⟨List.replicate 9 goodTxtApp, false, "", none⟩

/-- A state holding a stale error message and no files. -/
def staleState : AppState := ⟨[], false, "", some "stale"⟩

/-- A two-file state used for removal claims. -/
def twoState : AppState :=
  ⟨[⟨goodTxt, "", some "hello", "i1"⟩, ⟨goodPng, "QUJD", none, "i2"⟩], false, "res", some "err"⟩

/-! Helper lemmas. -/

/-- A successful candidate extends the loop accumulator by its tracked
file and keeps the error message. -/
theorem intakeStep_ok (st : List AppFile × Option String) (c : File × String) (af : AppFile)
    (h : processFile c.1 c.2 = .ok af) : intakeStep st c = (st.1 ++ [af], st.2) := by
  unfold intakeStep
  rw [h]

/-- A failing candidate leaves the loop accumulator alone and overwrites
the error message. -/
theorem intakeStep_error (st : List AppFile × Option String) (c : File × String) (e : String)
    (h : processFile c.1 c.2 = .error e) :
    intakeStep st c = (st.1, some (perFileError c.1 e)) := by
  unfold intakeStep
  rw [h]

/-- The intake loop admits exactly the successfully processed candidates,
in submission order, appended after the accumulator. -/
theorem intakeLoop_fst (sel : List (File × String)) (acc : List AppFile) (err : Option String) :
    (intakeLoop sel (acc, err)).1 = acc ++ sel.filterMap (fun c => (processFile c.1 c.2).toOption) := by
  suffices h : ∀ st : List AppFile × Option String,
      (sel.foldl intakeStep st).1 = st.1 ++ sel.filterMap (fun c => (processFile c.1 c.2).toOption) by
    exact h (acc, err)
  induction sel with
  | nil => intro st; simp
  | cons c rest ih =>
    intro st
    rw [List.foldl_cons, ih]
    cases h : processFile c.1 c.2 with
    | ok af =>
      rw [intakeStep_ok st c af h]
      simp [h, Except.toOption, List.filterMap_cons]
    | error e =>
      rw [intakeStep_error st c e h]
      simp [h, Except.toOption, List.filterMap_cons]

/-- An `Except` whose `toOption` is `some` is that very success. -/
theorem toOption_eq_ok {e : Except String AppFile} {a : AppFile}
    (h : e.toOption = some a) : e = .ok a := by
  cases e with
  | ok b =>
    simp [Except.toOption] at h
    rw [h]
  | error msg => simp [Except.toOption] at h

/-- A successfully processed candidate populates at most one content
field: either `extractedText` (with `base64` empty), or `base64` alone,
or — when a binary-classified file has empty content — neither. -/
theorem processFile_ok_populated (f : File) (id : String) (af : AppFile)
    (h : processFile f id = .ok af) :
    exactlyOnePopulated af ∨ (af.extractedText = none ∧ af.base64 = "") := by
  unfold processFile at h
  split at h
  · cases hx : extractDocxText f <;> rw [hx] at h <;> cases h
    left; left
    exact ⟨rfl, by simp [payloadPopulated]⟩
  · split at h
    · cases hx : f.textContent <;> rw [hx] at h <;> cases h
      left; left
      exact ⟨rfl, by simp [payloadPopulated]⟩
    · cases hx : f.base64Content with
      | ok b =>
        rw [hx] at h; cases h
        by_cases hb : b = ""
        · right; exact ⟨rfl, hb⟩
        · left; right
          exact ⟨hb, by simp [textPopulated]⟩
      | error e => rw [hx] at h; cases h

/-- Appending under `String.join`: joining a cons. -/
theorem join_cons (a : String) (l : List String) : String.join (a :: l) = a ++ String.join l := by
  apply String.ext
  simp [String.join_eq]

/-- The fragment accumulator equals the initial buffer followed by the
join of all fragments (empty fragments contribute nothing). -/
theorem accumulate_eq_join (fragments : List String) (init : String) :
    accumulate init fragments = init ++ String.join fragments := by
  induction fragments generalizing init with
  | nil =>
    apply String.ext
    simp [accumulate, String.join_eq]
  | cons t rest ih =>
    unfold accumulate at ih ⊢
    rw [List.foldl_cons, join_cons]
    by_cases ht : t = ""
    · subst ht
      rw [if_neg (by simp), ih, String.empty_append]
    · rw [if_pos ht, ih, String.append_assoc]

/-- One intake-loop match per file part: the filter-mapped part list has
one entry per file whose `filePart` is defined. -/
theorem length_filterMap_filePart (files : List AppFile) :
    (files.filterMap filePart).length = files.countP (fun f => (filePart f).isSome) := by
  induction files with
  | nil => simp
  | cons f fs ih =>
    cases h : filePart f <;> simp [List.filterMap_cons, h, List.countP_cons, ih]

/-- A failing analysis run lowers the analyzing flag, surfaces the error
message (with fallback) and keeps the text accumulated so far. -/
theorem analyzeFiles_failure_eq (s : AppState) (frags : List String) (msg : Option String)
    (h : s.files.length ≠ 0) :
    analyzeFiles s (.failure frags msg)
      = { s with isAnalyzing := false, result := accumulate "" frags,
                 error := some (errorMessageOf msg) } := by
  unfold analyzeFiles
  rw [if_neg h]

/-- A successful analysis run lowers the analyzing flag, clears the error
and holds the accumulated text. -/
theorem analyzeFiles_success_eq (s : AppState) (frags : List String)
    (h : s.files.length ≠ 0) :
    analyzeFiles s (.success frags)
      = { s with isAnalyzing := false, result := accumulate "" frags, error := none } := by
  unfold analyzeFiles
  rw [if_neg h]

/-! The claims. -/

/-- C1: an `addFiles` call whose candidates would push the batch size past
ten is rejected in its entirety: the file collection after the call is
identical to before (no candidate admitted, even individually fitting
ones), the capacity error message is set, and nothing else changes. -/
theorem C1_capacity_rejection (s : AppState) (sel : List (File × String))
    (h : s.files.length + sel.length > 10) :
    (handleFileChange s sel).files = s.files
    ∧ (handleFileChange s sel).error = some capacityError
    ∧ (handleFileChange s sel).result = s.result
    ∧ (handleFileChange s sel).isAnalyzing = s.isAnalyzing := by
  unfold handleFileChange
  rw [if_pos h]
  exact ⟨rfl, rfl, rfl, rfl⟩

/-- C1 witness: nine tracked files plus two candidates, each of which
would individually fit, are rejected wholesale. -/
theorem C1_capacity_rejection_witness :
    nineState.files.length + ([(goodTxt, "w1"), (goodPng, "w2")] : List (File × String)).length > 10
    ∧ ((handleFileChange nineState [(goodTxt, "w1"), (goodPng, "w2")]).files = nineState.files
      ∧ (handleFileChange nineState [(goodTxt, "w1"), (goodPng, "w2")]).error = some capacityError
      ∧ (handleFileChange nineState [(goodTxt, "w1"), (goodPng, "w2")]).result = nineState.result
      ∧ (handleFileChange nineState [(goodTxt, "w1"), (goodPng, "w2")]).isAnalyzing
          = nineState.isAnalyzing) :=
  ⟨by decide, C1_capacity_rejection nineState [(goodTxt, "w1"), (goodPng, "w2")] (by decide)⟩

/-- C2 counterexample: an empty PNG file is admitted by intake with
`extractedText` absent and `base64 = ""`, so neither content field is
populated — refuting "exactly one populated, never neither, including
empty files". -/
theorem C2_exactly_one_counterexample :
    (handleFileChange initialState [(emptyPng, "i1")]).files = [emptyPngApp]
    ∧ ¬ exactlyOnePopulated emptyPngApp := by
  constructor
  · decide
  · decide

/-- C2 amended: every file present after an intake call was either already
in the batch or has at most one populated content field — exactly one when
its content is non-empty, and neither exactly when it is a
binary-classified file whose payload is empty. -/
theorem C2_amended_populated_invariant (s : AppState) (sel : List (File × String)) (af : AppFile)
    (h : af ∈ (handleFileChange s sel).files) :
    af ∈ s.files ∨ exactlyOnePopulated af ∨ (af.extractedText = none ∧ af.base64 = "") := by
  unfold handleFileChange at h
  by_cases hc : s.files.length + sel.length > 10
  · rw [if_pos hc] at h
    exact Or.inl h
  · rw [if_neg hc] at h
    have h' : af ∈ s.files ++ (intakeLoop sel ([], s.error)).1 := h
    rw [intakeLoop_fst, List.nil_append] at h'
    rcases List.mem_append.mp h' with hl | hr
    · exact Or.inl hl
    · obtain ⟨c, _, hsome⟩ := List.mem_filterMap.mp hr
      exact Or.inr (processFile_ok_populated c.1 c.2 af (toOption_eq_ok hsome))

/-- C2 amended witness: a successfully admitted text file satisfies the
amended populated-fields invariant. -/
theorem C2_amended_populated_witness :
    goodTxtApp ∈ (handleFileChange initialState [(goodTxt, "i1")]).files
    ∧ (goodTxtApp ∈ initialState.files ∨ exactlyOnePopulated goodTxtApp
      ∨ (goodTxtApp.extractedText = none ∧ goodTxtApp.base64 = "")) :=
  ⟨by decide, C2_amended_populated_invariant initialState [(goodTxt, "i1")] goodTxtApp (by decide)⟩

/-- C3 counterexample: the batch holding only the admitted empty PNG has
one tracked file, yet `buildParts` emits a single part (the instruction),
not `len(batch) + 1 = 2` parts. -/
theorem C3_parts_count_counterexample :
    (buildParts (handleFileChange initialState [(emptyPng, "i1")]).files).length
      ≠ (handleFileChange initialState [(emptyPng, "i1")]).files.length + 1 := by
  decide

/-- C3 amended: assembling the request parts produces one part per tracked
file with populated content, in batch order, followed by the instruction
text as the last part — hence `len(batch) + 1` parts whenever every file
in the batch has populated content. -/
theorem C3_amended_parts_shape (files : List AppFile) :
    (buildParts files).length = files.countP (fun f => (filePart f).isSome) + 1
    ∧ (buildParts files).getLast? = some (Part.text instructionText)
    ∧ (buildParts files).dropLast = files.filterMap filePart
    ∧ ((∀ f ∈ files, (filePart f).isSome) → (buildParts files).length = files.length + 1) := by
  refine ⟨?_, ?_, ?_, ?_⟩
  · unfold buildParts
    rw [List.length_append, length_filterMap_filePart]
    rfl
  · unfold buildParts
    exact List.getLast?_concat _
  · unfold buildParts
    exact List.dropLast_concat ..
  · intro hall
    unfold buildParts
    rw [List.length_append, length_filterMap_filePart, List.countP_eq_length.mpr hall]
    rfl

/-- C3 amended witness: the specification's three-file scenario batch
(text, Word document, image) has populated content everywhere and yields
exactly four parts. -/
theorem C3_amended_parts_witness :
    (∀ f ∈ scenarioBatch, (filePart f).isSome)
    ∧ (buildParts scenarioBatch).length = scenarioBatch.length + 1 :=
  ⟨by decide, (C3_amended_parts_shape scenarioBatch).2.2.2 (by decide)⟩

/-- C4 counterexample: a failing Word document followed by a good text
file, within capacity.  The per-file message is recorded transiently by
the loop, the good candidate is admitted, but the call completes with
ErrorState `none` — not the per-file failure the claim promises. -/
theorem C4_error_surfacing_counterexample :
    (intakeLoop [(badDocx, "c1"), (goodTxt, "c2")] ([], initialState.error)).2
      = some (perFileError badDocx "Не удалось прочитать содержимое Word документа.")
    ∧ (handleFileChange initialState [(badDocx, "c1"), (goodTxt, "c2")]).files
        = [⟨goodTxt, "", some "hello", "c2"⟩]
    ∧ (handleFileChange initialState [(badDocx, "c1"), (goodTxt, "c2")]).error = none := by
  refine ⟨by decide, by decide, by decide⟩

/-- C4 amended: when a candidate fails extraction/encoding during a
within-capacity `addFiles` call, that candidate is omitted and subsequent
candidates are still processed and admitted (the batch gains exactly the
successfully processed candidates, in order), but the call completes with
ErrorState cleared to `none` — the final unconditional clear overwrites
the per-file message recorded during processing. -/
theorem C4_amended_per_file_failure (s : AppState) (sel : List (File × String))
    (h : ¬ (s.files.length + sel.length > 10)) :
    (handleFileChange s sel).files
      = s.files ++ sel.filterMap (fun c => (processFile c.1 c.2).toOption)
    ∧ (handleFileChange s sel).error = none := by
  unfold handleFileChange
  rw [if_neg h]
  constructor
  · show s.files ++ (intakeLoop sel ([], s.error)).1 = _
    rw [intakeLoop_fst, List.nil_append]
  · rfl

/-- C4 amended witness: the failing-docx-then-good-txt call is within
capacity, admits exactly the good candidate, and ends with no error. -/
theorem C4_amended_per_file_failure_witness :
    ¬ (initialState.files.length
        + ([(badDocx, "c1"), (goodTxt, "c2")] : List (File × String)).length > 10)
    ∧ ((handleFileChange initialState [(badDocx, "c1"), (goodTxt, "c2")]).files
        = initialState.files
          ++ ([(badDocx, "c1"), (goodTxt, "c2")] : List (File × String)).filterMap
              (fun c => (processFile c.1 c.2).toOption)
      ∧ (handleFileChange initialState [(badDocx, "c1"), (goodTxt, "c2")]).error = none) :=
  ⟨by decide,
    C4_amended_per_file_failure initialState [(badDocx, "c1"), (goodTxt, "c2")] (by decide)⟩

/-- C5: classification follows the specification's precedence — Word name
extension or Word MIME type dispatches to the document text extractor;
otherwise plain-text type or text extension reads the bytes as UTF-8 text;
otherwise the bytes are base64-encoded. -/
theorem C5_classification_refines_spec (f : File) (id : String) :
    processFile f id = runStrategy (specClassify f) f id := by
  by_cases h1 : strEndsWith f.name ".docx" = true ∨ f.type = wordMime
  · have hc : specClassify f = Strategy.wordExtract := by
      unfold specClassify
      rw [if_pos h1]
    have hb : (strEndsWith f.name ".docx" || f.type == wordMime) = true := by
      rcases h1 with h | h
      · rw [h]
        rfl
      · rw [beq_iff_eq.mpr h, Bool.or_true]
    rw [hc]
    unfold processFile runStrategy
    rw [if_pos hb]
    cases hx : extractDocxText f <;> rfl
  · have he : strEndsWith f.name ".docx" = false := by
      cases hE : strEndsWith f.name ".docx"
      · rfl
      · exact absurd (Or.inl hE) h1
    have ht : (f.type == wordMime) = false := by
      cases hT : f.type == wordMime
      · rfl
      · exact absurd (Or.inr (beq_iff_eq.mp hT)) h1
    have hb : (strEndsWith f.name ".docx" || f.type == wordMime) = false := by
      rw [he, ht]
      rfl
    by_cases h2 : f.type = "text/plain" ∨ strEndsWith f.name ".txt" = true
    · have hc : specClassify f = Strategy.utf8Text := by
        unfold specClassify
        rw [if_neg h1, if_pos h2]
      have hb2 : (f.type == "text/plain" || strEndsWith f.name ".txt") = true := by
        rcases h2 with h | h
        · rw [beq_iff_eq.mpr h]
          rfl
        · rw [h, Bool.or_true]
      rw [hc]
      unfold processFile runStrategy
      rw [if_neg (by simp [hb]), if_pos hb2]
      cases hx : f.textContent <;> rfl
    · have he2 : strEndsWith f.name ".txt" = false := by
        cases hE : strEndsWith f.name ".txt"
        · rfl
        · exact absurd (Or.inr hE) h2
      have ht2 : (f.type == "text/plain") = false := by
        cases hT : f.type == "text/plain"
        · rfl
        · exact absurd (Or.inl (beq_iff_eq.mp hT)) h2
      have hb2 : (f.type == "text/plain" || strEndsWith f.name ".txt") = false := by
        rw [he2, ht2]
        rfl
      have hc : specClassify f = Strategy.base64Encode := by
        unfold specClassify
        rw [if_neg h1, if_neg h2]
      rw [hc]
      unfold processFile runStrategy
      rw [if_neg (by simp [hb]), if_neg (by simp [hb2])]
      cases hx : f.base64Content <;> rfl

/-- C6: a failing analysis run over a non-empty batch ends with
`isAnalyzing = false`, the error message (or the generic fallback when the
thrown error carries none) surfaced, and the result still holding every
fragment accumulated before the error. -/
theorem C6_failed_run_state (s : AppState) (frags : List String) (msg : Option String)
    (h : s.files.length ≠ 0) :
    (analyzeFiles s (.failure frags msg)).isAnalyzing = false
    ∧ (analyzeFiles s (.failure frags msg)).error = some (errorMessageOf msg)
    ∧ (analyzeFiles s (.failure frags msg)).result = String.join frags := by
  rw [analyzeFiles_failure_eq s frags msg h]
  refine ⟨rfl, rfl, ?_⟩
  show accumulate "" frags = String.join frags
  rw [accumulate_eq_join, String.empty_append]

/-- C6 witness: a stream that throws after two fragments leaves their
concatenation in the result and the fallback message in the error state. -/
theorem C6_failed_run_witness :
    twoState.files.length ≠ 0
    ∧ ((analyzeFiles twoState (.failure ["Файл 1: ", "вывод."] none)).isAnalyzing = false
      ∧ (analyzeFiles twoState (.failure ["Файл 1: ", "вывод."] none)).error
          = some (errorMessageOf none)
      ∧ (analyzeFiles twoState (.failure ["Файл 1: ", "вывод."] none)).result
          = String.join ["Файл 1: ", "вывод."]) :=
  ⟨by decide, C6_failed_run_state twoState ["Файл 1: ", "вывод."] none (by decide)⟩

/-- C7: a successful analysis run over a non-empty batch ends with the
result equal to the concatenation, in arrival order, of all fragments the
stream yielded — independent of any previously displayed result. -/
theorem C7_success_concat (s : AppState) (frags : List String)
    (h : s.files.length ≠ 0) :
    (analyzeFiles s (.success frags)).result = String.join frags
    ∧ (analyzeFiles s (.success frags)).isAnalyzing = false := by
  rw [analyzeFiles_success_eq s frags h]
  refine ⟨?_, rfl⟩
  show accumulate "" frags = String.join frags
  rw [accumulate_eq_join, String.empty_append]

/-- C7 witness: three fragments, one of them empty, concatenate in arrival
order into the final result. -/
theorem C7_success_concat_witness :
    twoState.files.length ≠ 0
    ∧ ((analyzeFiles twoState (.success ["Файл: ", "", "вывод"])).result
        = String.join ["Файл: ", "", "вывод"]
      ∧ (analyzeFiles twoState (.success ["Файл: ", "", "вывод"])).isAnalyzing = false) :=
  ⟨by decide, C7_success_concat twoState ["Файл: ", "", "вывод"] (by decide)⟩

/-- C8: removing the same identifier twice equals removing it once, and
removing an identifier absent from the batch leaves the state unchanged
(and raises no error). -/
theorem C8_remove_idempotent_noop (s : AppState) (id : String) :
    removeFile (removeFile s id) id = removeFile s id
    ∧ ((∀ f ∈ s.files, f.id ≠ id) → removeFile s id = s) := by
  constructor
  · unfold removeFile
    simp [List.filter_filter]
  · intro h
    unfold removeFile
    have heq : s.files.filter (fun f => f.id ≠ id) = s.files :=
      List.filter_eq_self.mpr (by simpa using h)
    rw [heq]

/-- C8 witness: removing an absent identifier from a two-file batch is a
no-op, and a second removal changes nothing further. -/
theorem C8_remove_idempotent_witness :
    (∀ f ∈ twoState.files, f.id ≠ "zz")
    ∧ (removeFile (removeFile twoState "zz") "zz" = removeFile twoState "zz"
      ∧ removeFile twoState "zz" = twoState) :=
  ⟨by decide,
    (C8_remove_idempotent_noop twoState "zz").1,
    (C8_remove_idempotent_noop twoState "zz").2 (by decide)⟩

/-- C9: every `addFiles` call that passes the capacity check finishes with
ErrorState cleared to `none` — the final unconditional clear runs whether
or not per-file failures set a message during processing. -/
theorem C9_intake_clears_error (s : AppState) (sel : List (File × String))
    (h : ¬ (s.files.length + sel.length > 10)) :
    (handleFileChange s sel).error = none := by
  unfold handleFileChange
  rw [if_neg h]

/-- C9 witness: an intake call over a state with a stale error and a
candidate that fails extraction still ends with no error. -/
theorem C9_intake_clears_error_witness :
    ¬ (staleState.files.length + ([(badDocx, "w9")] : List (File × String)).length > 10)
    ∧ (handleFileChange staleState [(badDocx, "w9")]).error = none :=
  ⟨by decide, C9_intake_clears_error staleState [(badDocx, "w9")] (by decide)⟩

/-- C10: `removeFile` modifies only the file collection — result text,
analyzing flag and error state are unchanged — and the remaining tracked
files are a sublist of the original batch (same order, same fields). -/
theorem C10_remove_frame (s : AppState) (id : String) :
    (removeFile s id).result = s.result
    ∧ (removeFile s id).isAnalyzing = s.isAnalyzing
    ∧ (removeFile s id).error = s.error
    ∧ ((removeFile s id).files).Sublist s.files := by
  refine ⟨rfl, rfl, rfl, ?_⟩
  exact List.filter_sublist _

end DocAnalyzer
